import Mathlib

/-!
Shallow embedding of `src/homeassistant/components/somweb/cover.py`, the
SOMweb garage-door cover platform.

Remote calls made through the external `somweb` client library are modelled
as oracle parameters: each call site receives the outcome the awaited call
would produce, with `none` standing for the call raising an exception.  The
module-level global `_TOKEN` is threaded explicitly as an `Option String`
(`none` is Python's `None`).  Python truthiness quirks that matter are
modelled explicitly and documented at the definition.
-/

/-- The `somweb` library's `DoorStatusType` enumeration as used by the
platform: `Open`, `Closed`, `Unknown`. -/
inductive DoorStatusType where
  | Open
  | Closed
  | Unknown
deriving DecidableEq, Repr

/-- Result object of `SomwebClient.authenticate()`: the fields the platform
reads (`success`, `token`, `page_content`). -/
structure AuthResult where
  success : Bool
  token : String
  page_content : String
deriving DecidableEq, Repr

/-- The `somweb` library's `Door` record: the fields the platform reads
(`id`, `name`). -/
structure Door where
  id : Int
  name : String
deriving DecidableEq, Repr

/-- The mutable state of one `SomWebDoor` entity, plus the immutable fields
set in `__init__` (`_id`, `_name`, `_unique_id`, `_id_in_log`). -/
structure SomWebDoor where
  id : Int
  name : String
  state : Option DoorStatusType
  is_opening : Bool
  is_closing : Bool
  unique_id : String
  available : Bool
  id_in_log : String
deriving DecidableEq, Repr

/-- Embeds `SomWebDoor.__init__(self, client, door)`: `_state = None`, both
transient flags `False`, `_available = True`, `_unique_id` and `_id_in_log`
formatted from the client's UDI and the door's id and name. -/
def SomWebDoor.init (udi : String) (door : Door) : SomWebDoor :=
  { id := door.id
    name := door.name
    state := none
    is_opening := false
    is_closing := false
    unique_id := udi ++ "_" ++ toString door.id
    available := true
    id_in_log := "\x27" ++ door.name ++ " (" ++ udi ++ "_" ++ toString door.id ++ ")\x27" }

/-- Embeds the `current_cover_position` property:
`0 if self._state == DoorStatusType.Closed else 100 if self._state == DoorStatusType.Open else None`. -/
def current_cover_position (s : SomWebDoor) : Option Nat :=
  if s.state = some DoorStatusType.Closed then some 0
  else if s.state = some DoorStatusType.Open then some 100
  else none

/-- Embeds the `is_closed` property:
`None if self._state == None or self._state == DoorStatusType.Unknown else self._state == DoorStatusType.Closed`. -/
def is_closed (s : SomWebDoor) : Option Bool :=
  if s.state = none ∨ s.state = some DoorStatusType.Unknown then none
  else some (decide (s.state = some DoorStatusType.Closed))

/-- Embeds `SomWebDoor.__async_refresh_state`.  `query` is the outcome of
`await self._client.get_door_status(self._id)`: `some st` when the call
returns status `st`, `none` when it raises.  On success the status is stored
and the result is `self._state != DoorStatusType.Unknown`; on an exception the
bare `except` stores `DoorStatusType.Unknown` and the result is `False`.
No other field of the entity is written. -/
def async_refresh_state (s : SomWebDoor) (query : Option DoorStatusType) :
    SomWebDoor × Bool :=
  match query with
  | some st => ({ s with state := some st }, decide (st ≠ DoorStatusType.Unknown))
  | none => ({ s with state := some DoorStatusType.Unknown }, false)

/-- In `SomWebDoor.__async_re_connect` the guard reads
`if not self._client.is_alive():` without `await`.  `is_alive` is a coroutine
function — `async_setup_platform` awaits the very same call — so the value
tested here is the coroutine object itself, and a coroutine object is always
truthy in Python.  This constant is that truthiness: the guard tests it
instead of the device's actual reachability. -/
def is_alive_unawaited_truthy : Bool := true

/-- Observable outcome of one `__async_re_connect` call: whether
`authenticate()` was invoked, the returned Bool, and the global `_TOKEN`
after the call. -/
structure ReConnectResult where
  auth_invoked : Bool
  result : Bool
  token : Option String
deriving DecidableEq, Repr

/-- Embeds `SomWebDoor.__async_re_connect`.  `device_alive` is the value an
awaited `is_alive()` call would produce; the source omits `await`, so the
guard tests `is_alive_unawaited_truthy` and `device_alive` is never consulted.
`auth` is the outcome of `await self._client.authenticate()`, `none` when it
raises (the bare `except` then falls through to `return False`).  `token` is
the global `_TOKEN` before the call; it is reassigned only on the
success-and-non-empty-token path. -/
def async_re_connect (device_alive : Bool) (auth : Option AuthResult)
    (token : Option String) : ReConnectResult :=
  if is_alive_unawaited_truthy = false then
    { auth_invoked := false, result := false, token := token }
  else
    match auth with
    | none => { auth_invoked := true, result := false, token := token }
    | some a =>
      if a.success = true ∧ 0 < a.token.length then
        { auth_invoked := true, result := true, token := some a.token }
      else
        { auth_invoked := true, result := false, token := token }

/-- Embeds line 222 of the source, the last statement of `async_update`:
`self._available = self._state != DoorStatusType.Unknown`.  In Python
`None != DoorStatusType.Unknown` is `True`, so over the optional state the
test is `state ≠ some Unknown`. -/
def set_available (s : SomWebDoor) : SomWebDoor :=
  { s with available := decide (s.state ≠ some DoorStatusType.Unknown) }

/-- Observable outcome of one `async_update` call: the final entity state,
the global `_TOKEN` after the call, how many times `__async_refresh_state`
and `__async_re_connect` were invoked, and the entity state at every point
during the call (after each mutation, ending with the final state). -/
structure UpdateResult where
  door : SomWebDoor
  token : Option String
  refresh_calls : Nat
  reconnect_calls : Nat
  trace : List SomWebDoor
deriving Repr

/-- Embeds `SomWebDoor.async_update`.  `query n` is the outcome of the n-th
`get_door_status` call made during this update (0-indexed); `device_alive`
and `auth` feed the single possible `__async_re_connect` call.  The source's
condition `a or (b and c)` evaluates left to right with short-circuit, which
the nested `if`s reproduce; afterwards `_available` is assigned
unconditionally (`set_available`). -/
def async_update (s : SomWebDoor) (token : Option String)
    (query : Nat → Option DoorStatusType) (device_alive : Bool)
    (auth : Option AuthResult) : UpdateResult :=
  let r1 := async_refresh_state s (query 0)
  if r1.2 then
    let fin := set_available r1.1
    { door := fin, token := token, refresh_calls := 1, reconnect_calls := 0,
      trace := [r1.1, fin] }
  else
    let rc := async_re_connect device_alive auth token
    if rc.result then
      let r2 := async_refresh_state r1.1 (query 1)
      let fin := set_available r2.1
      { door := fin, token := rc.token, refresh_calls := 2, reconnect_calls := 1,
        trace := [r1.1, r2.1, fin] }
    else
      let fin := set_available r1.1
      { door := fin, token := rc.token, refresh_calls := 1, reconnect_calls := 1,
        trace := [r1.1, fin] }

/-- Observable outcome of one `async_open_cover` / `async_close_cover` call:
the final entity state, the global `_TOKEN` after the call, and the entity
state at every point during the call (entry, after each mutation, ending with
the final state). -/
structure CommandResult where
  door : SomWebDoor
  token : Option String
  trace : List SomWebDoor
deriving Repr

/-- Embeds `SomWebDoor.async_open_cover`.  `open_outcome` is the result of
`await self._client.open_door(_TOKEN, self._id)` (`none` when it raises) and
`wait_outcome` that of `wait_for_door_state` (`none` when it raises).
Neither library call mutates the entity, and the bare `except` swallows any
exception from them, so they cannot affect the entity state; the `finally`
block always clears `_is_opening` and then runs `_force_update`, i.e.
`async_update` followed by a state publish. -/
def async_open_cover (s : SomWebDoor) (token : Option String)
    (open_outcome : Option Bool) (wait_outcome : Option Unit)
    (query : Nat → Option DoorStatusType) (device_alive : Bool)
    (auth : Option AuthResult) : CommandResult :=
  let s1 := { s with is_opening := true }
  let s2 := { s1 with is_opening := false }
  let u := async_update s2 token query device_alive auth
  { door := u.door, token := u.token, trace := s :: s1 :: s2 :: u.trace }

/-- Embeds `SomWebDoor.async_close_cover`, symmetric to `async_open_cover`
with `_is_closing` and `close_door`. -/
def async_close_cover (s : SomWebDoor) (token : Option String)
    (close_outcome : Option Bool) (wait_outcome : Option Unit)
    (query : Nat → Option DoorStatusType) (device_alive : Bool)
    (auth : Option AuthResult) : CommandResult :=
  let s1 := { s with is_closing := true }
  let s2 := { s1 with is_closing := false }
  let u := async_update s2 token query device_alive auth
  { door := u.door, token := u.token, trace := s :: s1 :: s2 :: u.trace }

/-- Observable outcome of `async_setup_platform`: the returned Bool, the
global `_TOKEN` after the call, the list of constructed `SomWebDoor`
entities, and whether `async_add_entities` was invoked. -/
structure SetupResult where
  result : Bool
  token : Option String
  entities : List SomWebDoor
  entities_added : Bool
deriving Repr

/-- Embeds `async_setup_platform`.  `device_alive` is the awaited
`client.is_alive()` outcome (this call is properly awaited at setup), `auth`
the awaited `authenticate()` result, and `doors` the list
`client.get_doors_from_page_content(auth_result.page_content)` yields.
`token` is the global `_TOKEN` before setup; it is assigned only after a
successful authentication.  An exception from a library call would propagate
out of setup and is outside this model. -/
def async_setup_platform (token : Option String) (udi : String)
    (device_alive : Bool) (auth : AuthResult) (doors : List Door) : SetupResult :=
  if device_alive = false then
    { result := false, token := token, entities := [], entities_added := false }
  else if auth.success = false then
    { result := false, token := token, entities := [], entities_added := false }
  else
    { result := true, token := some auth.token,
      entities := doors.map (SomWebDoor.init udi), entities_added := true }

/-! ## Helper lemmas -/

/-- `__async_refresh_state` writes only `_state`: the transient flags and
`_available` are untouched. -/
theorem async_refresh_state_frame (s : SomWebDoor) (q : Option DoorStatusType) :
    (async_refresh_state s q).1.is_opening = s.is_opening ∧
    (async_refresh_state s q).1.is_closing = s.is_closing ∧
    (async_refresh_state s q).1.available = s.available := by
  cases q <;> simp [async_refresh_state]

/-- `async_update` never writes the transient flags: the final state and every
state in its trace carry the flags of the input state. -/
theorem async_update_flags (s : SomWebDoor) (t : Option String)
    (q : Nat → Option DoorStatusType) (da : Bool) (a : Option AuthResult) :
    (async_update s t q da a).door.is_opening = s.is_opening ∧
    (async_update s t q da a).door.is_closing = s.is_closing ∧
    ∀ x ∈ (async_update s t q da a).trace,
      x.is_opening = s.is_opening ∧ x.is_closing = s.is_closing := by
  by_cases h1 : (async_refresh_state s (q 0)).2 = true
  · have hf := async_refresh_state_frame s (q 0)
    simp only [async_update, h1, if_true, set_available]
    simp_all [List.mem_cons]
  · have hf1 := async_refresh_state_frame s (q 0)
    have hf2 := async_refresh_state_frame (async_refresh_state s (q 0)).1 (q 1)
    by_cases h2 : (async_re_connect da (a) t).result = true <;>
      simp only [async_update, h1, h2, if_true, if_false, Bool.not_eq_true,
        set_available] <;>
      simp_all [List.mem_cons]

/-! ## Claim theorems -/

/-- Claim C1: the source tests `self._client.is_alive()` without `await`, so
the unreachable guard can never fire.  At the failing input — device
unreachable (`device_alive = false`), `authenticate()` raising — the code
still invokes `authenticate`, contradicting the claim that while the device
is unreachable `authenticate` is never invoked.  (The call does return false
and leave the token unchanged here, but only because `authenticate` itself
failed.) -/
theorem re_connect_unreachable_still_authenticates :
    (async_re_connect false none (some "token0")).auth_invoked = true ∧
    (async_re_connect false none (some "token0")).result = false ∧
    (async_re_connect false none (some "token0")).token = some "token0" :=
  ⟨rfl, rfl, rfl⟩

/-- Claim C2: a single `async_update` call makes at most two
`__async_refresh_state` calls and at most one `__async_re_connect` call, and
when the first refresh returns true it makes exactly one refresh call and no
reconnect call — for every sequence of refresh outcomes `query` and every
reconnect outcome. -/
theorem async_update_retry_bound (s : SomWebDoor) (t : Option String)
    (q : Nat → Option DoorStatusType) (da : Bool) (a : Option AuthResult) :
    (async_update s t q da a).refresh_calls ≤ 2 ∧
    (async_update s t q da a).reconnect_calls ≤ 1 ∧
    ((async_refresh_state s (q 0)).2 = true →
      (async_update s t q da a).refresh_calls = 1 ∧
      (async_update s t q da a).reconnect_calls = 0) := by
  by_cases h1 : (async_refresh_state s (q 0)).2 = true
  · simp [async_update, h1]
  · by_cases h2 : (async_re_connect da a t).result = true <;>
      simp [async_update, h1, h2]

/-- Claim C3, counterexample: `__async_refresh_state` does not mark the
entity unavailable on failure.  A freshly constructed door has
`_available = True`; when the status query raises, the refresh stores
`Unknown` and returns false, yet `_available` is still `True`. -/
theorem refresh_state_failure_leaves_available :
    ((async_refresh_state (SomWebDoor.init "udi0" { id := 1, name := "garage" })
        none).1.available = true) ∧
    ((async_refresh_state (SomWebDoor.init "udi0" { id := 1, name := "garage" })
        none).1.state = some DoorStatusType.Unknown) ∧
    ((async_refresh_state (SomWebDoor.init "udi0" { id := 1, name := "garage" })
        none).2 = false) :=
  ⟨rfl, rfl, rfl⟩

/-- Claim C3, amended: `__async_refresh_state` never raises past its boundary
(it is a total function of the query outcome): on failure it sets the door
status to `Unknown` and returns false; on success it stores the queried
status and returns true exactly when that status is not `Unknown`; it leaves
`_available` untouched — availability is updated afterwards by
`async_update`, not by the refresh itself. -/
theorem async_refresh_state_spec (s : SomWebDoor) (q : Option DoorStatusType) :
    (q = none → (async_refresh_state s q).1.state = some DoorStatusType.Unknown ∧
      (async_refresh_state s q).2 = false) ∧
    (∀ st, q = some st → (async_refresh_state s q).1.state = some st ∧
      ((async_refresh_state s q).2 = true ↔ st ≠ DoorStatusType.Unknown)) ∧
    (async_refresh_state s q).1.available = s.available := by
  cases q <;> simp [async_refresh_state]

/-- Claim C4: `__async_re_connect` returns true exactly when `authenticate`
returns (does not raise) with `success` and a non-empty token; on every
false-returning path — including an exception from `authenticate`
(`auth = none`) — the global `_TOKEN` is left untouched, and on the true path
it is replaced by the token `authenticate` yielded. -/
theorem re_connect_token_contract (da : Bool) (a : Option AuthResult)
    (t : Option String) :
    ((async_re_connect da a t).result = true ↔
      ∃ ar, a = some ar ∧ ar.success = true ∧ 0 < ar.token.length) ∧
    ((async_re_connect da a t).result = false →
      (async_re_connect da a t).token = t) ∧
    ((async_re_connect da a t).result = true →
      ∃ ar, a = some ar ∧ (async_re_connect da a t).token = some ar.token) := by
  rcases a with _ | ar
  · simp [async_re_connect, is_alive_unawaited_truthy]
  · by_cases h : ar.success = true ∧ 0 < ar.token.length <;>
      simp [async_re_connect, is_alive_unawaited_truthy, h]

/-- Claim C5: for every execution of `async_open_cover` or
`async_close_cover` — whatever the command primitive's outcome (returns true,
returns false, or raises) and whatever the forced update observes — the
corresponding transient flag is false when the call completes, and starting
from a state with no command in flight (both flags false) no state reached
during the call has `_is_opening` and `_is_closing` both true. -/
theorem open_close_clear_transient_flags (s : SomWebDoor) (t : Option String)
    (oo co : Option Bool) (wo wo2 : Option Unit)
    (q q2 : Nat → Option DoorStatusType) (da da2 : Bool)
    (a a2 : Option AuthResult)
    (hop : s.is_opening = false) (hcl : s.is_closing = false) :
    (async_open_cover s t oo wo q da a).door.is_opening = false ∧
    (∀ x ∈ (async_open_cover s t oo wo q da a).trace,
      ¬(x.is_opening = true ∧ x.is_closing = true)) ∧
    (async_close_cover s t co wo2 q2 da2 a2).door.is_closing = false ∧
    (∀ x ∈ (async_close_cover s t co wo2 q2 da2 a2).trace,
      ¬(x.is_opening = true ∧ x.is_closing = true)) := by
  have ho := async_update_flags { s with is_opening := false } t q da a
  have hc := async_update_flags { s with is_closing := false } t q2 da2 a2
  refine ⟨?_, ?_, ?_, ?_⟩
  · simpa [async_open_cover] using ho.1
  · intro x hx
    simp only [async_open_cover, List.mem_cons] at hx
    rcases hx with rfl | rfl | rfl | hx
    · simp [hop]
    · simp [hcl]
    · simp [hcl]
    · have := (ho.2.2 x (by simpa [async_open_cover] using hx)).1
      simp [this]
  · simpa [async_close_cover] using hc.2.1
  · intro x hx
    simp only [async_close_cover, List.mem_cons] at hx
    rcases hx with rfl | rfl | rfl | hx
    · simp [hop]
    · simp [hop]
    · simp [hop]
    · have := (hc.2.2 x (by simpa [async_close_cover] using hx)).2
      simp [this]

/-- Claim C5, witness: a concrete open call on a freshly constructed door
(both flags false), with the open command succeeding and the forced update
reading `Open`, ends with `_is_opening = false`. -/
theorem open_close_clear_transient_flags_witness :
    (async_open_cover (SomWebDoor.init "udi0" { id := 1, name := "garage" })
      (some "token0") (some true) (some ())
      (fun _ => some DoorStatusType.Open) true none).door.is_opening = false :=
  (open_close_clear_transient_flags
    (SomWebDoor.init "udi0" { id := 1, name := "garage" }) (some "token0")
    (some true) (some true) (some ()) (some ())
    (fun _ => some DoorStatusType.Open) (fun _ => some DoorStatusType.Open)
    true true none none rfl rfl).1

/-- Claim C6: immediately after every `async_update` call the entity's
availability equals `status != Unknown`: the final state is available exactly
when its stored door status is not `Unknown`. -/
theorem async_update_available_spec (s : SomWebDoor) (t : Option String)
    (q : Nat → Option DoorStatusType) (da : Bool) (a : Option AuthResult) :
    ((async_update s t q da a).door.available = true ↔
      (async_update s t q da a).door.state ≠ some DoorStatusType.Unknown) := by
  by_cases h1 : (async_refresh_state s (q 0)).2 = true
  · simp [async_update, h1, set_available]
  · by_cases h2 : (async_re_connect da a t).result = true <;>
      simp [async_update, h1, h2, set_available]

/-- Claim C7: the `current_cover_position` property returns 0 when the stored
door status is `Closed`, 100 when it is `Open`, and `None` when it is
`Unknown`. -/
theorem current_cover_position_spec (s : SomWebDoor) :
    (s.state = some DoorStatusType.Closed → current_cover_position s = some 0) ∧
    (s.state = some DoorStatusType.Open → current_cover_position s = some 100) ∧
    (s.state = some DoorStatusType.Unknown → current_cover_position s = none) := by
  refine ⟨fun h => ?_, fun h => ?_, fun h => ?_⟩ <;>
    simp [current_cover_position, h]

/-- Claim C8: when authentication fails during platform setup
(`auth.success = false`), `async_setup_platform` returns false, constructs no
door entities and never calls `async_add_entities` (and the global `_TOKEN`
is left untouched) — whatever the reachability probe said. -/
theorem setup_auth_failure_no_entities (t : Option String) (udi : String)
    (da : Bool) (auth : AuthResult) (doors : List Door)
    (h : auth.success = false) :
    (async_setup_platform t udi da auth doors).result = false ∧
    (async_setup_platform t udi da auth doors).entities = [] ∧
    (async_setup_platform t udi da auth doors).entities_added = false ∧
    (async_setup_platform t udi da auth doors).token = t := by
  cases da <;> simp [async_setup_platform, h]

/-- Claim C8, witness: a concrete setup with a reachable device but a failing
authentication returns false and yields no entities. -/
theorem setup_auth_failure_no_entities_witness :
    (async_setup_platform none "udi0" true
      { success := false, token := "", page_content := "" }
      [{ id := 1, name := "garage" }]).result = false ∧
    (async_setup_platform none "udi0" true
      { success := false, token := "", page_content := "" }
      [{ id := 1, name := "garage" }]).entities = [] ∧
    (async_setup_platform none "udi0" true
      { success := false, token := "", page_content := "" }
      [{ id := 1, name := "garage" }]).entities_added = false ∧
    (async_setup_platform none "udi0" true
      { success := false, token := "", page_content := "" }
      [{ id := 1, name := "garage" }]).token = none :=
  setup_auth_failure_no_entities none "udi0" true
    { success := false, token := "", page_content := "" }
    [{ id := 1, name := "garage" }] rfl

/-- Claim C9: the `is_closed` property returns `None` when the stored status
is `None` or `Unknown`, and otherwise reports whether the stored status is
`Closed` (true for `Closed`, false for `Open`). -/
theorem is_closed_spec (s : SomWebDoor) :
    (s.state = none → is_closed s = none) ∧
    (s.state = some DoorStatusType.Unknown → is_closed s = none) ∧
    (s.state = some DoorStatusType.Closed → is_closed s = some true) ∧
    (s.state = some DoorStatusType.Open → is_closed s = some false) := by
  refine ⟨fun h => ?_, fun h => ?_, fun h => ?_, fun h => ?_⟩ <;>
    simp [is_closed, h]

/-- Claim C10: a freshly constructed door entity reports `available = true`
even though its stored status is `None` — so `current_cover_position` and
`is_closed` both return `None` — and both transient flags are false. -/
theorem init_state_spec (udi : String) (door : Door) :
    (SomWebDoor.init udi door).available = true ∧
    (SomWebDoor.init udi door).state = none ∧
    current_cover_position (SomWebDoor.init udi door) = none ∧
    is_closed (SomWebDoor.init udi door) = none ∧
    (SomWebDoor.init udi door).is_opening = false ∧
    (SomWebDoor.init udi door).is_closing = false := by
  simp [SomWebDoor.init, current_cover_position, is_closed]
